import Mathlib

/-!
Shallow embedding of the balda native addon (src/native/test.cpp and
src/native/binding.cpp) and proofs about its specified behaviour.

The addon exposes one N-API callback, `addNumbers`, and two registration
routines: `balda::Init` (binding.cpp, status-checked) and `balda::init`
(test.cpp, statuses ignored). The embedding models the N-API boundary:
values, statuses, callback-info argument extraction, and the exports
surface as a map from property names to values. Machine `int32_t`
arithmetic is modelled on `Int` with explicit two's-complement
normalization into the signed 32-bit range. The status outcomes of
`napi_create_function` and `napi_set_named_property` are inputs to the
registration models, since the C code only branches on them; the
initial contents of uninitialized locals (`a`, `b` in `addNumbers`,
`add_numbers_fn` in the initializers) are likewise explicit inputs.
-/

namespace Balda

/-- Two's-complement normalization of an integer into the signed 32-bit
range [-2^31, 2^31). This is how `int32_t` arithmetic behaves on every
mainstream platform and how ECMAScript ToInt32 treats integral numbers. -/
def int32wrap (n : Int) : Int :=
  (n + 2147483648) % 4294967296 - 2147483648

/-- Model of `napi_status`: `napi_ok` and a few representative failure
codes (the C code only distinguishes ok from not-ok). -/
inductive NapiStatus where
  | napi_ok
  | napi_invalid_arg
  | napi_generic_failure
  | napi_number_expected
deriving DecidableEq, Repr

/-- Model of `napi_value`: an integral JS number, `undefined`, or the
callable created for `addNumbers`. -/
inductive NapiValue where
  | num (n : Int)
  | jsUndefined
  | func
deriving DecidableEq, Repr

/-- Whether a boxed value is a callable. -/
def NapiValue.isCallable : NapiValue → Bool
  | .func => true
  | _ => false

/-- `napi_get_cb_info` with an argument buffer of capacity 2: slot `i`
receives the i-th provided argument, or `undefined` when fewer arguments
were supplied. Arguments beyond the capacity are never copied. -/
def getArg (provided : List NapiValue) (i : Nat) : NapiValue :=
  provided.getD i .jsUndefined

/-- `napi_get_value_int32`: on a number it succeeds and yields the value
converted by ECMAScript ToInt32; on any other value it fails with
`napi_number_expected` and leaves the out-parameter (`cur`) unchanged. -/
def napi_get_value_int32 (v : NapiValue) (cur : Int) : NapiStatus × Int :=
  match v with
  | .num n => (.napi_ok, int32wrap n)
  | _ => (.napi_number_expected, cur)

/-- The `addNumbers` callback of test.cpp: read up to two arguments,
convert arguments 0 and 1 to `int32_t` discarding the conversion status,
add them as `int32_t`, and box the result with `napi_create_int32`.
`a0` and `b0` are the initial (uninitialized) contents of the locals
`a` and `b`. -/
def addNumbers (provided : List NapiValue) (a0 b0 : Int) : NapiValue :=
  let a := (napi_get_value_int32 (getArg provided 0) a0).2
  let b := (napi_get_value_int32 (getArg provided 1) b0).2
  .num (int32wrap (a + b))

/-- The exports surface: a map from property names to boxed values. -/
def Exports := String → Option NapiValue

/-- An empty exports surface, as the host would hand to the initializer. -/
def emptyExports : Exports := fun _ => none

/-- `napi_create_function`, parameterized by its status outcome `s`: on
success the out-parameter becomes the callable, on failure it keeps its
prior (uninitialized) value `fn0`. -/
def napi_create_function (s : NapiStatus) (fn0 : NapiValue) : NapiValue :=
  if s = .napi_ok then .func else fn0

/-- `napi_set_named_property`, parameterized by its status outcome `s`:
on success the surface gains/overwrites the named property, on failure
the surface is unchanged. -/
def napi_set_named_property (s : NapiStatus) (ex : Exports)
    (name : String) (v : NapiValue) : Exports :=
  if s = .napi_ok then (fun k => if k = name then some v else ex k) else ex

/-- Result of a module initializer run: the value returned to the host
(`none` models the `nullptr` sentinel) and the pending runtime error
raised with `napi_throw_error`, if any. -/
structure InitResult where
  returned : Option Exports
  thrown : Option String

/-- `balda::Init` of binding.cpp, with the status outcomes of the two
N-API calls (`cs` for `napi_create_function`, `ss` for
`napi_set_named_property`) and the initial contents `fn0` of the
uninitialized local `add_numbers_fn` made explicit. The code checks each
status, throws a runtime error and returns `nullptr` on failure, and
otherwise returns the augmented exports surface. -/
def Init (cs ss : NapiStatus) (exports : Exports) (fn0 : NapiValue) :
    InitResult :=
  let add_numbers_fn := napi_create_function cs fn0
  if cs ≠ .napi_ok then
    { returned := none, thrown := some "Failed to create addNumbers function" }
  else
    let exports' :=
      napi_set_named_property ss exports "addNumbers" add_numbers_fn
    if ss ≠ .napi_ok then
      { returned := none, thrown := some "Failed to set addNumbers property" }
    else
      { returned := some exports', thrown := none }

/-- `balda::init` of test.cpp: the same two N-API calls, but both
statuses are ignored and the exports surface is returned
unconditionally, with no error thrown. -/
def init (cs ss : NapiStatus) (exports : Exports) (fn0 : NapiValue) :
    InitResult :=
  let add_numbers_fn := napi_create_function cs fn0
  let exports' :=
    napi_set_named_property ss exports "addNumbers" add_numbers_fn
  { returned := some exports', thrown := none }

/-- Normalization is the identity on the signed 32-bit range. -/
theorem int32wrap_eq_self (n : Int) (h1 : -2147483648 ≤ n)
    (h2 : n ≤ 2147483647) : int32wrap n = n := by
  unfold int32wrap
  omega

/-- C1: for every pair of 32-bit signed integers a and b (and any
contents of the uninitialized locals), `addNumbers` returns a boxed
32-bit integer equal to a + b under two's-complement 32-bit wraparound,
with no overflow check. -/
theorem addNumbers_correct (a b j1 j2 : Int)
    (ha1 : -2147483648 ≤ a) (ha2 : a ≤ 2147483647)
    (hb1 : -2147483648 ≤ b) (hb2 : b ≤ 2147483647) :
    addNumbers [.num a, .num b] j1 j2 = .num (int32wrap (a + b)) := by
  simp only [addNumbers, getArg, napi_get_value_int32, List.getD,
    List.get?_cons_zero, List.get?_cons_succ, Option.getD_some,
    NapiValue.num.injEq]
  rw [int32wrap_eq_self a ha1 ha2, int32wrap_eq_self b hb1 hb2]

/-- Witness for C1 at the concrete input (2, 3). -/
theorem addNumbers_correct_witness :
    addNumbers [.num 2, .num 3] 0 0 = .num (int32wrap (2 + 3)) :=
  addNumbers_correct 2 3 0 0 (by decide) (by decide) (by decide) (by decide)

/-- C4: addNumbers(2147483647, 1) wraps at the signed 32-bit boundary
and returns -2147483648; no overflow error is raised. -/
theorem addNumbers_boundary_wrap :
    addNumbers [.num 2147483647, .num 1] 0 0 = .num (-2147483648) := by
  decide

/-- C6: addNumbers is commutative on 32-bit signed integer arguments. -/
theorem addNumbers_comm (a b j1 j2 : Int)
    (ha1 : -2147483648 ≤ a) (ha2 : a ≤ 2147483647)
    (hb1 : -2147483648 ≤ b) (hb2 : b ≤ 2147483647) :
    addNumbers [.num a, .num b] j1 j2 = addNumbers [.num b, .num a] j1 j2 := by
  simp only [addNumbers, getArg, napi_get_value_int32, List.getD,
    List.get?_cons_zero, List.get?_cons_succ, Option.getD_some,
    NapiValue.num.injEq]
  rw [Int.add_comm]

/-- Witness for C6 at the concrete input (2, 3). -/
theorem addNumbers_comm_witness :
    addNumbers [.num 2, .num 3] 0 0 = addNumbers [.num 3, .num 2] 0 0 :=
  addNumbers_comm 2 3 0 0 (by decide) (by decide) (by decide) (by decide)

/-- C7: for every 32-bit signed integer a, addNumbers(a, 0) = a. -/
theorem addNumbers_zero_identity (a j1 j2 : Int)
    (ha1 : -2147483648 ≤ a) (ha2 : a ≤ 2147483647) :
    addNumbers [.num a, .num 0] j1 j2 = .num a := by
  simp only [addNumbers, getArg, napi_get_value_int32, List.getD,
    List.get?_cons_zero, List.get?_cons_succ, Option.getD_some,
    NapiValue.num.injEq]
  simp only [int32wrap]
  omega

/-- Witness for C7 at the concrete input a = 42. -/
theorem addNumbers_zero_identity_witness :
    addNumbers [.num 42, .num 0] 0 0 = .num 42 :=
  addNumbers_zero_identity 42 0 0 (by decide) (by decide)

/-- C3 fails on the code: a call with fewer than two arguments does not
yield a defined, documented error. With zero arguments the callback
still returns an ordinary boxed number computed from the uninitialized
locals, and that result depends on the uninitialized contents (here: the
locals zeroed versus local `a` starting at 1 give different results), so
the behaviour is undefined rather than a defined error. -/
theorem addNumbers_missing_args_counterexample :
    addNumbers [] 0 0 = .num 0 ∧ addNumbers [] 1 0 ≠ addNumbers [] 0 0 := by
  decide

/-- C3 amended: a call with fewer than two arguments signals no error;
the missing argument is seen as `undefined`, its unchecked int32
extraction fails leaving the local unchanged, and the callback returns a
boxed int32 equal to the wraparound sum of the supplied argument and the
uninitialized local `b` — i.e. an unspecified value, not a defined
documented error. -/
theorem addNumbers_missing_arg_behavior (a a0 b0 : Int)
    (ha1 : -2147483648 ≤ a) (ha2 : a ≤ 2147483647) :
    addNumbers [.num a] a0 b0 = .num (int32wrap (a + b0)) := by
  simp only [addNumbers, getArg, napi_get_value_int32, List.getD,
    List.get?_cons_zero, List.get?_cons_succ, List.get?_nil,
    Option.getD_some, Option.getD_none, NapiValue.num.injEq]
  rw [int32wrap_eq_self a ha1 ha2]

/-- Witness for the amended C3 at a = 5 with uninitialized local b0 = 7. -/
theorem addNumbers_missing_arg_behavior_witness :
    addNumbers [.num 5] 0 7 = .num (int32wrap (5 + 7)) :=
  addNumbers_missing_arg_behavior 5 0 7 (by decide) (by decide)

/-- C2: whenever creation of the callable or its attachment to the
exports surface fails, `Init` raises a host-visible runtime error and
returns the null sentinel instead of the exports surface, so it never
returns a partially configured surface. -/
theorem Init_failure_aborts (cs ss : NapiStatus) (ex : Exports)
    (fn0 : NapiValue) (h : cs ≠ .napi_ok ∨ ss ≠ .napi_ok) :
    (Init cs ss ex fn0).returned = none ∧
    (Init cs ss ex fn0).thrown.isSome := by
  cases cs <;> cases ss <;> simp_all [Init]

/-- Witness for C2 with a failing `napi_create_function`. -/
theorem Init_failure_aborts_witness :
    (Init .napi_generic_failure .napi_ok emptyExports .jsUndefined).returned
      = none ∧
    (Init .napi_generic_failure .napi_ok emptyExports .jsUndefined).thrown.isSome :=
  Init_failure_aborts _ _ _ _ (Or.inl (by decide))

/-- C5: on a successful run, `Init` throws nothing and returns the very
surface it received, updated at exactly the one key "addNumbers" (which
now holds the callable) and agreeing with the original surface at every
other key; the model's only other state, the pending-exception slot,
stays empty. -/
theorem Init_success_adds_only_addNumbers (ex : Exports) (fn0 : NapiValue) :
    (Init .napi_ok .napi_ok ex fn0).thrown = none ∧
    (Init .napi_ok .napi_ok ex fn0).returned =
      some (fun k => if k = "addNumbers" then some NapiValue.func else ex k) ∧
    NapiValue.func.isCallable = true :=
  ⟨rfl, rfl, rfl⟩

/-- C9: the status-checking `Init` of binding.cpp and the
status-ignoring `init` of test.cpp return identical results whenever
both N-API calls succeed; when either call fails, `Init` returns the
null sentinel with a pending runtime error while `init` still returns an
exports surface and throws nothing. -/
theorem Init_init_refinement (cs ss : NapiStatus) (ex : Exports)
    (fn0 : NapiValue) :
    (cs = .napi_ok → ss = .napi_ok → Init cs ss ex fn0 = init cs ss ex fn0) ∧
    ((cs ≠ .napi_ok ∨ ss ≠ .napi_ok) →
      (Init cs ss ex fn0).returned = none ∧
      (Init cs ss ex fn0).thrown.isSome ∧
      (init cs ss ex fn0).returned.isSome ∧
      (init cs ss ex fn0).thrown = none) := by
  cases cs <;> cases ss <;> simp [Init, init]

/-- Witness for C9: agreement on the all-ok run and divergence on a run
where attaching the property fails. -/
theorem Init_init_refinement_witness :
    Init .napi_ok .napi_ok emptyExports .jsUndefined
      = init .napi_ok .napi_ok emptyExports .jsUndefined ∧
    (Init .napi_ok .napi_invalid_arg emptyExports .jsUndefined).returned = none ∧
    (init .napi_ok .napi_invalid_arg emptyExports .jsUndefined).returned.isSome :=
  ⟨(Init_init_refinement .napi_ok .napi_ok emptyExports .jsUndefined).1 rfl rfl,
   ((Init_init_refinement .napi_ok .napi_invalid_arg emptyExports .jsUndefined).2
      (Or.inr (by decide))).1,
   ((Init_init_refinement .napi_ok .napi_invalid_arg emptyExports .jsUndefined).2
      (Or.inr (by decide))).2.2.1⟩

/-- C8: addNumbers is a pure, deterministic, stateless computation — two
calls supplied with the same pair of integer arguments return the same
result, whatever the per-call uninitialized local contents are; no state
is carried between calls. -/
theorem addNumbers_deterministic (a b j1 j2 j1' j2' : Int) :
    addNumbers [.num a, .num b] j1 j2 = addNumbers [.num a, .num b] j1' j2' :=
  rfl

/-- C10: the result of addNumbers depends only on the first two
arguments — argc is capped at 2, so any extra arguments (and the
uninitialized locals) are never read. -/
theorem addNumbers_ignores_extra_args (a b : Int)
    (rest rest' : List NapiValue) (j1 j2 j1' j2' : Int) :
    addNumbers (.num a :: .num b :: rest) j1 j2 =
      addNumbers (.num a :: .num b :: rest') j1' j2' :=
  rfl

end Balda
